import Mathlib

/-!
Shallow embedding of the interactive interview recording engine
(`backend/interactive_interview.py` and the upload endpoint of
`backend/main.py`), together with theorems settling the specification
claims about it.

Conventions of the embedding:
* an audio sample chunk is a list of integer samples (the code records
  int16 samples; the width plays no role in any claim);
* the mutable attributes of `AudioRecorder` become the fields of
  `RecorderState`; the opaque stream / thread handles become `Option Nat`;
* the container write (`wave.open ... writeframes`) may raise; its outcome
  is passed to `save_recording` as an explicit `writeOk : Bool`;
* the HTTP upload collaborator is an oracle `UploadCall → Option String`
  returning the remote URL on success and `none` on failure;
* the countdown thread of `CountdownTimer.start` is modelled as a
  small-step machine (`stepT`) whose atomic actions are the individual
  reads / writes of the Python thread, so that every interleaving with a
  concurrent `stop()` is the injection of the `running := false` write
  after some number `k` of thread steps.
-/

namespace InterviewRecording

/-! ### AudioRecorder -/

/-- A raw sample chunk as delivered by the capture callback. -/
abbrev Chunk := List Int

/-- Fixed sample rate set in `AudioRecorder.__init__` (44100 Hz). -/
def sampleRate : Nat := 44100

/-- Mutable state of `AudioRecorder`: `recording` flag, `audio_data`
buffer, `_stream` handle and `_recording_thread` handle. -/
structure RecorderState where
  recording : Bool
  audioData : List Chunk
  stream : Option Nat
  thread : Option Nat
deriving DecidableEq

/-- Error vocabulary of the spec for `Recorder.start()`; the code itself
never produces it, which is what the second component of
`start_recording` records. -/
inductive RecError
  | alreadyRecording
deriving DecidableEq

/-- Embedding of `AudioRecorder.start_recording`: if already recording it
returns immediately (no exception, no state change); otherwise it sets
the flag, resets the buffer to `[]` and spawns the recording thread.
The stream itself is opened afterwards inside that thread
(see `openStream`). -/
def start_recording (r : RecorderState) : RecorderState × Option RecError :=
  if r.recording then (r, none)
  else ({ r with recording := true, audioData := [], thread := some 0 }, none)

/-- The background thread's `sd.InputStream(...)` acquisition. -/
def openStream (r : RecorderState) : RecorderState :=
  { r with stream := some 0 }

/-- Embedding of `AudioRecorder._audio_callback`: appends the delivered
chunk to the buffer, but only while the `recording` flag is set. -/
def audioCallback (r : RecorderState) (c : Chunk) : RecorderState :=
  if r.recording then { r with audioData := r.audioData ++ [c] } else r

/-- Delivery of a whole sequence of chunks by the capture stream. -/
def deliverChunks (r : RecorderState) (cs : List Chunk) : RecorderState :=
  cs.foldl audioCallback r

/-- Embedding of `AudioRecorder.stop_recording`: clears the flag, closes
and drops the stream handle (also on a close error, via `finally`), and
joins and drops the thread handle. The buffer is untouched. -/
def stop_recording (r : RecorderState) : RecorderState :=
  { r with recording := false, stream := none, thread := none }

/-- Total number of buffered samples, `len(np.concatenate(audio_data))`. -/
def totalSamples (r : RecorderState) : Nat :=
  (r.audioData.map List.length).sum

/-- Recorded duration in seconds, `len(audio_array) / self.sample_rate`. -/
def duration (r : RecorderState) : ℚ :=
  (totalSamples r : ℚ) / (sampleRate : ℚ)

/-- Embedding of `AudioRecorder.save_recording`: returns `0` for an empty
buffer, returns `0` below the 0.5 s minimum, returns `0` when the
container write raises, and otherwise returns the duration. In every
branch the recorder state — in particular `audio_data` — is returned
unchanged: the source never clears the buffer here. -/
def save_recording (r : RecorderState) (writeOk : Bool) : RecorderState × ℚ :=
  if r.audioData.isEmpty then (r, 0)
  else if duration r < 1/2 then (r, 0)
  else if writeOk then (r, duration r) else (r, 0)

/-- A recording attempt as built by `record_answer` (the `created_at`
timestamp is irrelevant to every claim and omitted). -/
structure RecordingAttempt where
  questionId : String
  filePath : String
  durationSec : ℚ
deriving DecidableEq

/-- Attach decision of `InteractiveInterview.record_answer`: after saving,
a recording datum is produced iff the returned duration is `> 0`. -/
def record_answer (r : RecorderState) (writeOk : Bool) (qid fp : String) :
    Option RecordingAttempt :=
  let d := (save_recording r writeOk).2
  if 0 < d then some ⟨qid, fp, d⟩ else none

/-! ### CountdownTimer

The countdown thread body is

  while self.running and self.remaining > 0:
      ... print ...
      time.sleep(1)
      self.remaining -= 1
  if self.remaining <= 0 and self.running:
      ... fire callback ...

Each read or write of a shared variable is one atomic step; `and` is
short-circuit, so each guard is two separate reads. -/

/-- Program counter of the countdown thread. -/
inductive TPc
  | loopRun
  | loopRem
  | dec
  | finRem
  | finRun
  | fire
  | done
deriving DecidableEq

/-- Shared state of one countdown instance: `remaining`, `running`, the
number of times the expiry callback has fired, and the thread's pc. -/
structure TimerState where
  remaining : Nat
  running : Bool
  fired : Nat
  pc : TPc
deriving DecidableEq

/-- State right after `CountdownTimer.start(seconds)` launched the thread:
`running = true`, `remaining = seconds`, callback not yet fired. -/
def startT (seconds : Nat) : TimerState :=
  ⟨seconds, true, 0, .loopRun⟩

/-- One atomic step of the countdown thread. -/
def stepT (s : TimerState) : TimerState :=
  match s.pc with
  | .loopRun => if s.running then { s with pc := .loopRem } else { s with pc := .finRem }
  | .loopRem => if 0 < s.remaining then { s with pc := .dec } else { s with pc := .finRem }
  | .dec => { s with remaining := s.remaining - 1, pc := .loopRun }
  | .finRem => if s.remaining = 0 then { s with pc := .finRun } else { s with pc := .done }
  | .finRun => if s.running then { s with pc := .fire } else { s with pc := .done }
  | .fire => { s with fired := s.fired + 1, pc := .done }
  | .done => s

/-- The atomic effect of `CountdownTimer.stop()`. -/
def stopT (s : TimerState) : TimerState :=
  { s with running := false }

/-- Run of a countdown instance on which `stop()` is never called. -/
def runNoStop (n fuel : Nat) : TimerState :=
  stepT^[fuel] (startT n)

/-- Run of a countdown instance in which `stop()` is interleaved after
exactly `k` atomic thread steps. -/
def runWithStop (n k fuel : Nat) : TimerState :=
  stepT^[fuel] (stopT (stepT^[k] (startT n)))

/-! ### InterviewSession state and navigation -/

/-- A campaign question (fields used by the interview loop). -/
structure Question where
  id : String
  text : String
  timeLimitSec : Nat
deriving DecidableEq

/-- Session state of `InteractiveInterview`: question list, cursor
(`current_question_index`), the `recordings` mapping as an association
list in insertion order, and the participant id. -/
structure SessionState where
  questions : List Question
  cursor : Nat
  recordings : List (String × List RecordingAttempt)
  participantId : String
deriving DecidableEq

/-- Boundary conditions reported by the navigation commands (the code
prints a message; the message identity is the reported signal). -/
inductive NavSignal
  | indexOutOfRange
  | atLastQuestion
  | atFirstQuestion
deriving DecidableEq

/-- Embedding of the `goto` command after parsing: `i` is the 0-based
index `int(parts[1]) - 1`; the cursor moves only when
`0 <= i < len(questions)`, otherwise the out-of-range message is
printed and nothing changes. -/
def gotoQuestion (s : SessionState) (i : Int) : SessionState × Option NavSignal :=
  if 0 ≤ i ∧ i < (s.questions.length : Int) then
    ({ s with cursor := i.toNat }, none)
  else (s, some .indexOutOfRange)

/-- Embedding of the `next` command. -/
def nextQuestion (s : SessionState) : SessionState × Option NavSignal :=
  if (s.cursor : Int) < (s.questions.length : Int) - 1 then
    ({ s with cursor := s.cursor + 1 }, none)
  else (s, some .atLastQuestion)

/-- Embedding of the `prev` command. -/
def prevQuestion (s : SessionState) : SessionState × Option NavSignal :=
  if 0 < s.cursor then ({ s with cursor := s.cursor - 1 }, none)
  else (s, some .atFirstQuestion)

/-! ### Submission pipeline -/

/-- Lookup in the `recordings` dict, `self.recordings.get(qid)`. -/
def lookupRecordings (recs : List (String × List RecordingAttempt))
    (qid : String) : Option (List RecordingAttempt) :=
  (recs.find? fun p => p.1 == qid).map Prod.snd

/-- Python truthiness test `not self.recordings.get(qid)`: a missing key
and an empty list are both falsy. -/
def isUnanswered (o : Option (List RecordingAttempt)) : Bool :=
  match o with
  | none => true
  | some [] => true
  | some (_ :: _) => false

/-- The 1-based indices collected by the `submit` branch of
`run_interview`: `i + 1` for every enumerated question whose recording
list is missing or empty. -/
def unansweredQuestions (s : SessionState) : List Nat :=
  s.questions.enum.filterMap fun p =>
    if isUnanswered (lookupRecordings s.recordings p.2.id) then some (p.1 + 1) else none

/-- One entry of the submission payload's `recordings` lists. -/
structure PayloadEntry where
  questionId : String
  filePath : String
  durationSec : ℚ
deriving DecidableEq

/-- The data of one call to the upload collaborator
(`POST /recordings/upload` with the audio file and form fields). -/
structure UploadCall where
  campaignId : String
  participantId : String
  questionId : String
  localPath : String
deriving DecidableEq

/-- The submission payload posted to `/interviews/submit` (demographics
are irrelevant to every claim and omitted). -/
structure SubmissionPayload where
  campaignId : String
  participantId : String
  recordings : List (String × List PayloadEntry)
deriving DecidableEq

/-- Inner loop of `submit_interview` over one question's recordings:
every attempt is uploaded; a successful upload appends a payload entry
with the returned URL, a failed one is skipped (the loop continues).
Returns the payload entries and the list of upload calls made, both in
attempt order. -/
def uploadQuestion (upload : UploadCall → Option String) (cid pid qid : String) :
    List RecordingAttempt → List PayloadEntry × List UploadCall
  | [] => ([], [])
  | a :: rest =>
    let call : UploadCall := ⟨cid, pid, qid, a.filePath⟩
    let tail := uploadQuestion upload cid pid qid rest
    match upload call with
    | some url => (⟨qid, url, a.durationSec⟩ :: tail.1, call :: tail.2)
    | none => (tail.1, call :: tail.2)

/-- Outer loop of `submit_interview` over `self.recordings.items()`. -/
def uploadAll (upload : UploadCall → Option String) (cid pid : String) :
    List (String × List RecordingAttempt) →
      List (String × List PayloadEntry) × List UploadCall
  | [] => ([], [])
  | q :: rest =>
    let here := uploadQuestion upload cid pid q.1 q.2
    let tail := uploadAll upload cid pid rest
    ((q.1, here.1) :: tail.1, here.2 ++ tail.2)

/-- Embedding of `InteractiveInterview.submit_interview`: uploads every
attached recording (skipping failures), then unconditionally posts the
assembled payload to the persist endpoint — exactly one persist call per
invocation, whatever the upload outcomes. Result: the payload, the
upload calls made, and the number of persist calls. -/
def submit_interview (upload : UploadCall → Option String) (cid pid : String)
    (recs : List (String × List RecordingAttempt)) :
    SubmissionPayload × List UploadCall × Nat :=
  let up := uploadAll upload cid pid recs
  (⟨cid, pid, up.1⟩, up.2, 1)

/-- Outcome of the `submit` command of the interview loop. -/
inductive SubmitOutcome
  | incomplete (missing : List Nat)
  | submitted (payload : SubmissionPayload) (persistCalls : Nat)
deriving DecidableEq

/-- Embedding of the `submit` branch of `run_interview`: if any question
is unanswered, print the 1-based indices and `continue` — nothing is
uploaded and the session state is untouched; otherwise run
`submit_interview`. -/
def submitCommand (upload : UploadCall → Option String) (cid : String)
    (s : SessionState) : SubmitOutcome × SessionState × List UploadCall :=
  if (unansweredQuestions s).isEmpty then
    (.submitted (submit_interview upload cid s.participantId s.recordings).1
        (submit_interview upload cid s.participantId s.recordings).2.2, s,
      (submit_interview upload cid s.participantId s.recordings).2.1)
  else (.incomplete (unansweredQuestions s), s, [])

/-! ### Server-side destination path (`main.py`, `upload_recording`) -/

/-- The generated file name, `f"{datetime.now().strftime(...)}.wav"`:
a pure function of the formatted wall-clock timestamp. -/
def uploadFileName (now : String) : String :=
  now ++ ".wav"

/-- The storage destination path built by the upload endpoint,
`f"recordings/{campaign_id}/{participant_id}/{question_id}/{filename}"`. -/
def firebasePath (cid pid qid now : String) : String :=
  "recordings/" ++ cid ++ "/" ++ pid ++ "/" ++ qid ++ "/" ++ uploadFileName now

/-- All attached attempts of a session in submission order, tagged with
their question id. -/
def flattenAttempts (recs : List (String × List RecordingAttempt)) :
    List (String × RecordingAttempt) :=
  recs.foldr (fun p acc => (p.2.map fun a => (p.1, a)) ++ acc) []

/-- Destination paths produced for a whole submission, pairing the
attempts in submission order with the wall-clock timestamps `times` at
which the upload endpoint handles them. -/
def submissionPaths (cid pid : String)
    (recs : List (String × List RecordingAttempt)) (times : List String) :
    List String :=
  ((flattenAttempts recs).zip times).map fun q => firebasePath cid pid q.1.1 q.2

/-! ### Concrete inputs used by counterexamples and witnesses -/

/-- A recorder that is mid-capture. -/
def rBusy : RecorderState := ⟨true, [], some 0, some 0⟩

/-- An idle recorder holding one second of buffered audio (44100 samples
at 44100 Hz). -/
def rLong : RecorderState := ⟨false, [List.replicate 44100 0], none, none⟩

/-- An idle recorder holding 100 samples, well below the 0.5 s minimum. -/
def rShort : RecorderState := ⟨false, [List.replicate 100 0], none, none⟩

/-- An idle recorder with a stale buffer left over from an earlier cycle. -/
def rStale : RecorderState := ⟨false, [[1, 2]], none, none⟩

/-- Two example questions. -/
def q1 : Question := ⟨"q1", "first", 30⟩

/-- Second example question. -/
def q2 : Question := ⟨"q2", "second", 30⟩

/-- An example attached attempt for question 1. -/
def att1 : RecordingAttempt := ⟨"q1", "f1", 1⟩

/-- An example attached attempt for question 2. -/
def att2 : RecordingAttempt := ⟨"q2", "f2", 1⟩

/-- A session in which question 2 has no recordings. -/
def sIncomplete : SessionState :=
  ⟨[q1, q2], 0, [("q1", [att1]), ("q2", [])], "part"⟩

/-- A fully answered two-question session. -/
def sComplete : SessionState :=
  ⟨[q1, q2], 0, [("q1", [att1]), ("q2", [att2])], "part"⟩

/-- A one-question session with its cursor at the only (hence last and
first) index. -/
def sOne : SessionState :=
  ⟨[q1], 0, [("q1", [att1])], "part"⟩

/-- An upload oracle that fails exactly on question 2's file. -/
def uploadFailQ2 : UploadCall → Option String :=
  fun c => if c.localPath == "f2" then none else some ("https://x/" ++ c.localPath)

/-! ### Recorder theorems (claims C2, C3, C4, C8, C10) -/

/-- Claim C2 (amended): `save_recording` returns the recorder state — in
particular the audio buffer — unchanged in every branch; the source
never clears the buffer during save. Isolation between attempts comes
from the buffer reset in `start_recording` and from `record_answer`
constructing a fresh recorder per capture. -/
theorem save_recording_preserves_state (r : RecorderState) (w : Bool) :
    (save_recording r w).1 = r := by
  unfold save_recording
  repeat' split
  all_goals rfl

/-- Evaluation: the one-second recorder holds 44100 samples. -/
theorem totalSamples_rLong : totalSamples rLong = 44100 := by
  show ([List.replicate 44100 (0 : Int)].map List.length).sum = 44100
  rw [List.map_cons, List.map_nil, List.length_replicate, List.sum_cons, List.sum_nil]
  rfl

/-- Evaluation: the one-second recorder's duration is 1 s. -/
theorem duration_rLong : duration rLong = 1 := by
  unfold duration
  rw [totalSamples_rLong]
  norm_num [sampleRate]

/-- Evaluation: the short recorder holds 100 samples. -/
theorem totalSamples_rShort : totalSamples rShort = 100 := by
  show ([List.replicate 100 (0 : Int)].map List.length).sum = 100
  rw [List.map_cons, List.map_nil, List.length_replicate, List.sum_cons, List.sum_nil]
  rfl

/-- Evaluation: the short recorder's duration is 100/44100 s. -/
theorem duration_rShort : duration rShort = 100 / 44100 := by
  unfold duration
  rw [totalSamples_rShort]
  norm_num [sampleRate]

/-- Characterization: save on an empty buffer returns 0. -/
theorem save_empty (r : RecorderState) (w : Bool)
    (he : r.audioData.isEmpty = true) : save_recording r w = (r, 0) := by
  unfold save_recording
  rw [if_pos he]

/-- Characterization: save below the 0.5 s threshold returns 0. -/
theorem save_short (r : RecorderState) (w : Bool)
    (h : duration r < 1/2) : save_recording r w = (r, 0) := by
  unfold save_recording
  by_cases he : r.audioData.isEmpty = true
  · rw [if_pos he]
  · rw [if_neg he, if_pos h]

/-- Characterization: save at or above the threshold with a successful
container write returns the duration. -/
theorem save_long_ok (r : RecorderState) (h : ¬ duration r < 1/2)
    (hne : r.audioData.isEmpty = false) :
    save_recording r true = (r, duration r) := by
  unfold save_recording
  rw [if_neg (by simp [hne]), if_neg h, if_pos rfl]

/-- Characterization: save at or above the threshold with a failed
container write returns 0 (and the state is still unchanged). -/
theorem save_long_fail (r : RecorderState) (h : ¬ duration r < 1/2)
    (hne : r.audioData.isEmpty = false) :
    save_recording r false = (r, 0) := by
  unfold save_recording
  rw [if_neg (by simp [hne]), if_neg h, if_neg (by simp)]

/-- Claim C2 counterexample: a fully successful save (one second of
audio, container write succeeds, positive duration returned) leaves the
recorder's buffer non-empty, contradicting that the buffer is empty
after every call to save. -/
theorem save_leaves_buffer_cex :
    0 < (save_recording rLong true).2 ∧
      (save_recording rLong true).1.audioData ≠ [] := by
  have hne : rLong.audioData.isEmpty = false := rfl
  have hnl : ¬ (duration rLong < 1/2) := by rw [duration_rLong]; norm_num
  have hs : save_recording rLong true = (rLong, duration rLong) :=
    save_long_ok rLong hnl hne
  constructor
  · rw [hs]
    show (0 : ℚ) < duration rLong
    rw [duration_rLong]
    norm_num
  · rw [hs]
    show [List.replicate 44100 (0 : Int)] ≠ []
    exact List.cons_ne_nil _ _

/-- Claim C3 (amended): calling start on a recorder that is already
capturing is a silent no-op: the state is returned unchanged and no
error is signalled. -/
theorem start_recording_noop_when_recording (r : RecorderState)
    (h : r.recording = true) : start_recording r = (r, none) := by
  simp [start_recording, h]

/-- Claim C3 witness: the no-op theorem applied to the concrete
mid-capture recorder `rBusy`. -/
theorem start_recording_noop_witness :
    rBusy.recording = true ∧ start_recording rBusy = (rBusy, none) :=
  ⟨rfl, start_recording_noop_when_recording rBusy rfl⟩

/-- Claim C3 counterexample: on an already-capturing recorder, start does
not fail with an already-recording error — it signals nothing at all
(though the state is indeed unchanged). -/
theorem start_no_already_recording_error_cex :
    (start_recording rBusy).2 ≠ some RecError.alreadyRecording ∧
      (start_recording rBusy).1 = rBusy := by
  constructor <;> simp [start_recording, rBusy]

/-- Unfolding of `record_answer` as a plain conditional. -/
theorem record_answer_eq (r : RecorderState) (w : Bool) (qid fp : String) :
    record_answer r w qid fp =
      if 0 < (save_recording r w).2 then
        some ⟨qid, fp, (save_recording r w).2⟩
      else none := rfl

/-- Claim C4 (amended): an attempt is produced and attached iff the
buffered duration is at least 0.5 s and the container write succeeds;
below the threshold save returns 0 and nothing is attached, but the
buffer is left in place unchanged — it is not discarded. -/
theorem record_answer_attach_iff (r : RecorderState) (w : Bool) (qid fp : String) :
    ((record_answer r w qid fp).isSome ↔ (1/2 ≤ duration r ∧ w = true)) ∧
      (duration r < 1/2 →
        save_recording r w = (r, 0) ∧ record_answer r w qid fp = none) := by
  by_cases hlt : duration r < 1/2
  · have hs : save_recording r w = (r, 0) := save_short r w hlt
    refine ⟨⟨fun hsome => ?_, fun hr => ?_⟩,
      fun _ => ⟨hs, by simp [record_answer_eq, hs]⟩⟩
    · simp [record_answer_eq, hs] at hsome
    · exact absurd hlt (not_lt.mpr hr.1)
  · have hne : r.audioData.isEmpty = false := by
      rcases Bool.eq_false_or_eq_true r.audioData.isEmpty with h | h
      · exfalso
        have hnil : r.audioData = [] := by simpa using h
        have : duration r = 0 := by simp [duration, totalSamples, hnil]
        rw [this] at hlt
        exact hlt (by norm_num)
      · exact h
    rcases Bool.eq_false_or_eq_true w with hw | hwf
    · subst hw
      have hs : save_recording r true = (r, duration r) := save_long_ok r hlt hne
      have hge : 1/2 ≤ duration r := not_lt.mp hlt
      have hpos : 0 < duration r := by linarith
      refine ⟨⟨fun _ => ⟨hge, rfl⟩, fun _ => ?_⟩, fun hc => absurd hc hlt⟩
      simp [record_answer_eq, hs, hpos]
    · subst hwf
      have hs : save_recording r false = (r, 0) := save_long_fail r hlt hne
      refine ⟨⟨fun hsome => ?_, fun hr => by simp at hr⟩,
        fun hc => absurd hc hlt⟩
      simp [record_answer_eq, hs] at hsome

/-- Claim C4 witness: the amended attach theorem instantiated at the
short recording `rShort` (100 samples at 44100 Hz). -/
theorem record_answer_attach_iff_witness :
    duration rShort < 1/2 ∧
      (save_recording rShort true = (rShort, 0) ∧
        record_answer rShort true "q" "f" = none) := by
  have hlt : duration rShort < 1/2 := by rw [duration_rShort]; norm_num
  exact ⟨hlt, (record_answer_attach_iff rShort true "q" "f").2 hlt⟩

/-- Claim C4 counterexample: with 100 buffered samples (duration below
0.5 s) save returns 0 and nothing is attached, but the buffer is NOT
discarded — the samples are still buffered after the call. -/
theorem short_save_keeps_buffer_cex :
    duration rShort < 1/2 ∧ (save_recording rShort true).2 = 0 ∧
      (save_recording rShort true).1.audioData ≠ [] := by
  have hlt : duration rShort < 1/2 := by rw [duration_rShort]; norm_num
  have hs : save_recording rShort true = (rShort, 0) := save_short rShort true hlt
  refine ⟨hlt, by rw [hs], ?_⟩
  rw [hs]
  show [List.replicate 100 (0 : Int)] ≠ []
  exact List.cons_ne_nil _ _

/-- Claim C8: stop is idempotent — after one stop, any number of further
stop calls leave the whole recorder state (audio buffer, recording flag,
stream handle, thread handle) unchanged. -/
theorem stop_recording_idem (r : RecorderState) (n : Nat) :
    stop_recording^[n] (stop_recording r) = stop_recording r := by
  induction n with
  | zero => rfl
  | succ k ih =>
    rw [Function.iterate_succ_apply,
      show stop_recording (stop_recording r) = stop_recording r from rfl, ih]

/-- Delivering chunks to a recorder whose flag is set appends all of them
to the buffer in order. -/
theorem deliverChunks_recording (cs : List Chunk) (r : RecorderState)
    (h : r.recording = true) :
    deliverChunks r cs = { r with audioData := r.audioData ++ cs } := by
  induction cs generalizing r with
  | nil => simp [deliverChunks]
  | cons c cs ih =>
    have hc : audioCallback r c = { r with audioData := r.audioData ++ [c] } := by
      simp [audioCallback, h]
    show List.foldl audioCallback r (c :: cs) = _
    rw [List.foldl_cons, hc]
    have := ih { r with audioData := r.audioData ++ [c] } h
    rw [show List.foldl audioCallback { r with audioData := r.audioData ++ [c] } cs =
      deliverChunks { r with audioData := r.audioData ++ [c] } cs from rfl, this]
    simp

/-- Claim C10: starting an idle recorder resets the buffer to empty
(before the stream opens), so after the stream delivers the cycle's
chunks the buffer holds exactly those chunks — whatever stale audio the
recorder held before. -/
theorem start_resets_buffer (r : RecorderState) (cs : List Chunk)
    (h : r.recording = false) :
    (start_recording r).1.audioData = [] ∧
      (deliverChunks (openStream (start_recording r).1) cs).audioData = cs := by
  have h1 : (start_recording r).1 =
      { r with recording := true, audioData := [], thread := some 0 } := by
    simp [start_recording, h]
  refine ⟨by rw [h1], ?_⟩
  rw [h1]
  rw [show openStream { r with recording := true, audioData := [], thread := some 0 } =
    { r with recording := true, audioData := [], thread := some 0, stream := some 0 } from rfl]
  rw [deliverChunks_recording cs _ rfl]
  simp

/-- Claim C10 witness: the reset theorem at a recorder with a stale
buffer, delivering two fresh chunks. -/
theorem start_resets_buffer_witness :
    rStale.recording = false ∧
      ((start_recording rStale).1.audioData = [] ∧
        (deliverChunks (openStream (start_recording rStale).1)
          [[3], [4]]).audioData = [[3], [4]]) :=
  ⟨rfl, start_resets_buffer rStale [[3], [4]] rfl⟩

/-! ### CountdownTimer theorems (claim C5) -/

/-- One step preserves the timer invariant: the thread can be at the
final running check or at the fire action, or have a fired callback,
only once the counter has reached zero. -/
theorem stepT_reach_inv (s : TimerState)
    (h1 : s.pc = .finRun → s.remaining = 0)
    (h2 : s.pc = .fire → s.remaining = 0)
    (h3 : s.fired ≠ 0 → s.remaining = 0) :
    ((stepT s).pc = .finRun → (stepT s).remaining = 0) ∧
      ((stepT s).pc = .fire → (stepT s).remaining = 0) ∧
      ((stepT s).fired ≠ 0 → (stepT s).remaining = 0) := by
  rcases s with ⟨rem, run, fd, pc⟩
  cases pc <;>
    simp only [stepT] at * <;>
    first
      | (split <;> simp_all)
      | simp_all

/-- The timer invariant holds at every point of a stop-free run. -/
theorem reach_inv_iterate (n k : Nat) :
    ((stepT^[k] (startT n)).pc = .finRun → (stepT^[k] (startT n)).remaining = 0) ∧
      ((stepT^[k] (startT n)).pc = .fire → (stepT^[k] (startT n)).remaining = 0) ∧
      ((stepT^[k] (startT n)).fired ≠ 0 → (stepT^[k] (startT n)).remaining = 0) := by
  induction k with
  | zero => simp [startT]
  | succ m ih =>
    rw [Function.iterate_succ_apply']
    exact stepT_reach_inv _ ih.1 ih.2.1 ih.2.2

/-- After the running flag is cleared, and unless the thread is already
at the fire action, it can never fire: one-step preservation. -/
theorem stepT_dead (s : TimerState) (hrun : s.running = false)
    (hpc : s.pc ≠ .fire) (hf : s.fired = 0) :
    (stepT s).running = false ∧ (stepT s).pc ≠ .fire ∧ (stepT s).fired = 0 := by
  rcases s with ⟨rem, run, fd, pc⟩
  cases pc <;>
    simp only [stepT] at * <;>
    first
      | (split <;> simp_all)
      | simp_all

/-- After the running flag is cleared (thread not already at the fire
action, callback not yet fired), the callback never fires, for any
number of further thread steps. -/
theorem dead_iterate (s : TimerState) (hrun : s.running = false)
    (hpc : s.pc ≠ .fire) (hf : s.fired = 0) (m : Nat) :
    (stepT^[m] s).fired = 0 := by
  induction m generalizing s with
  | zero => exact hf
  | succ k ih =>
    rw [Function.iterate_succ_apply]
    obtain ⟨d1, d2, d3⟩ := stepT_dead s hrun hpc hf
    exact ih (stepT s) d1 d2 d3

/-- A stop-free countdown of `n` seconds reaches the terminal state, with
the callback fired exactly once, in exactly `3 * n + 5` atomic steps. -/
theorem run_to_done (n : Nat) :
    stepT^[3 * n + 5] (startT n) = ⟨0, true, 1, .done⟩ := by
  induction n with
  | zero => decide
  | succ m ih =>
    have hexp : 3 * (m + 1) + 5 = (3 * m + 5) + 3 := by ring
    have h3 : stepT^[3] (startT (m + 1)) = startT m := by
      show stepT (stepT (stepT (startT (m + 1)))) = startT m
      simp [startT, stepT]
    rw [hexp, Function.iterate_add_apply, h3, ih]

/-- The terminal state is absorbing. -/
theorem done_absorbing (s : TimerState) (h : s.pc = .done) (m : Nat) :
    stepT^[m] s = s := by
  have hstep : stepT s = s := by
    rcases s with ⟨rem, run, fd, pc⟩
    simp only at h
    subst h
    rfl
  induction m with
  | zero => rfl
  | succ k ih => rw [Function.iterate_succ_apply, hstep, ih]

/-- Claim C5: for one countdown instance, (a) under ANY interleaving of a
`stop()` with the ticking thread, if the stop lands while the counter is
still positive — i.e. before the countdown reaches zero — the expiry
callback never fires, however long the thread then runs; (b) a countdown
that runs to expiry with no stop fires the callback exactly once. -/
theorem countdown_stop_and_expiry (n k fuel : Nat) :
    (0 < (stepT^[k] (startT n)).remaining → (runWithStop n k fuel).fired = 0) ∧
      (3 * n + 5 ≤ fuel → (runNoStop n fuel).fired = 1) := by
  constructor
  · intro hrem
    obtain ⟨h1, h2, h3⟩ := reach_inv_iterate n k
    have hf : (stepT^[k] (startT n)).fired = 0 := by
      by_contra h
      have := h3 h
      omega
    have hpc : (stepT^[k] (startT n)).pc ≠ .fire := by
      intro h
      rw [h2 h] at hrem
      omega
    exact dead_iterate (stopT (stepT^[k] (startT n))) rfl hpc hf fuel
  · intro hfuel
    obtain ⟨m, hm⟩ := Nat.exists_eq_add_of_le hfuel
    unfold runNoStop
    rw [hm, Nat.add_comm, Function.iterate_add_apply, run_to_done,
      done_absorbing _ rfl]

/-- Claim C5 witness: a 2-second countdown stopped after one atomic
thread step (counter still at 2) never fires; the same countdown left
alone fires exactly once within its `3 * 2 + 5` steps. -/
theorem countdown_stop_and_expiry_witness :
    (0 < (stepT^[1] (startT 2)).remaining ∧ (runWithStop 2 1 30).fired = 0) ∧
      (3 * 2 + 5 ≤ 11 ∧ (runNoStop 2 11).fired = 1) :=
  ⟨⟨by decide, (countdown_stop_and_expiry 2 1 30).1 (by decide)⟩,
    ⟨by decide, (countdown_stop_and_expiry 2 0 11).2 (by decide)⟩⟩

/-! ### Navigation theorems (claim C9) -/

/-- Claim C9: navigation never moves the cursor out of range and never
wraps — an out-of-range goto leaves the cursor unchanged and signals the
out-of-range condition; next at (or beyond) the last index and prev at
the first leave the cursor unchanged and report the boundary; and every
navigation command keeps an in-range cursor in range. -/
theorem navigation_bounds (s : SessionState) (i : Int) :
    (¬ (0 ≤ i ∧ i < (s.questions.length : Int)) →
      gotoQuestion s i = (s, some .indexOutOfRange)) ∧
      ((s.questions.length : Int) - 1 ≤ (s.cursor : Int) →
        nextQuestion s = (s, some .atLastQuestion)) ∧
      (s.cursor = 0 → prevQuestion s = (s, some .atFirstQuestion)) ∧
      (s.cursor < s.questions.length →
        (gotoQuestion s i).1.cursor < s.questions.length ∧
          (nextQuestion s).1.cursor < s.questions.length ∧
          (prevQuestion s).1.cursor < s.questions.length) := by
  refine ⟨fun h => ?_, fun h => ?_, fun h => ?_, fun h => ⟨?_, ?_, ?_⟩⟩
  · rw [gotoQuestion, if_neg h]
  · rw [nextQuestion, if_neg (not_lt.mpr h)]
  · rw [prevQuestion, if_neg (by omega)]
  · unfold gotoQuestion
    split
    · rename_i hc
      show i.toNat < s.questions.length
      omega
    · exact h
  · unfold nextQuestion
    split
    · rename_i hc
      show s.cursor + 1 < s.questions.length
      omega
    · exact h
  · unfold prevQuestion
    split
    · show s.cursor - 1 < s.questions.length
      omega
    · exact h

/-- Claim C9 witness: on the one-question session, goto 5 is rejected
with the cursor untouched, next and prev both report boundaries without
moving, and the cursor stays in range. -/
theorem navigation_bounds_witness :
    (¬ ((0 : Int) ≤ 5 ∧ (5 : Int) < (sOne.questions.length : Int)) ∧
      gotoQuestion sOne 5 = (sOne, some .indexOutOfRange)) ∧
      (((sOne.questions.length : Int) - 1 ≤ (sOne.cursor : Int)) ∧
        nextQuestion sOne = (sOne, some .atLastQuestion)) ∧
      (sOne.cursor = 0 ∧ prevQuestion sOne = (sOne, some .atFirstQuestion)) ∧
      (sOne.cursor < sOne.questions.length ∧
        (gotoQuestion sOne 5).1.cursor < sOne.questions.length) := by
  have h := navigation_bounds sOne 5
  exact ⟨⟨by decide, h.1 (by decide)⟩, ⟨by decide, h.2.1 (by decide)⟩,
    ⟨rfl, h.2.2.1 rfl⟩, ⟨by decide, (h.2.2.2 (by decide)).1⟩⟩

/-! ### Submission theorems (claims C1, C6, C7) -/

/-- The payload entries built for one question are exactly the
successful uploads, in attempt order. -/
theorem uploadQuestion_entries (upload : UploadCall → Option String)
    (cid pid qid : String) (rs : List RecordingAttempt) :
    (uploadQuestion upload cid pid qid rs).1 =
      rs.filterMap fun a => (upload ⟨cid, pid, qid, a.filePath⟩).map
        fun url => PayloadEntry.mk qid url a.durationSec := by
  induction rs with
  | nil => rfl
  | cons a rest ih =>
    rw [uploadQuestion, List.filterMap_cons]
    cases hu : upload ⟨cid, pid, qid, a.filePath⟩ <;> simp [hu, ih]

/-- Every attempt of a question is uploaded, in attempt order, whatever
the outcomes (isolate-and-continue, not fail-fast). -/
theorem uploadQuestion_calls (upload : UploadCall → Option String)
    (cid pid qid : String) (rs : List RecordingAttempt) :
    (uploadQuestion upload cid pid qid rs).2 =
      rs.map fun a => UploadCall.mk cid pid qid a.filePath := by
  induction rs with
  | nil => rfl
  | cons a rest ih =>
    rw [uploadQuestion]
    cases hu : upload ⟨cid, pid, qid, a.filePath⟩ <;> simp [hu, ih]

/-- The whole payload keeps one entry list per question, in question
order, holding exactly the successful uploads of that question. -/
theorem uploadAll_entries (upload : UploadCall → Option String)
    (cid pid : String) (recs : List (String × List RecordingAttempt)) :
    (uploadAll upload cid pid recs).1 =
      recs.map fun q => (q.1, q.2.filterMap fun a =>
        (upload ⟨cid, pid, q.1, a.filePath⟩).map
          fun url => PayloadEntry.mk q.1 url a.durationSec) := by
  induction recs with
  | nil => rfl
  | cons q rest ih =>
    rw [uploadAll]
    simp [uploadQuestion_entries, ih]

/-- Unfolding lemma for `flattenAttempts`. -/
theorem flattenAttempts_cons (q : String × List RecordingAttempt)
    (rest : List (String × List RecordingAttempt)) :
    flattenAttempts (q :: rest) =
      (q.2.map fun a => (q.1, a)) ++ flattenAttempts rest := rfl

/-- Across the whole submission, every attached attempt is uploaded, in
question order and attempt order. -/
theorem uploadAll_calls (upload : UploadCall → Option String)
    (cid pid : String) (recs : List (String × List RecordingAttempt)) :
    (uploadAll upload cid pid recs).2 =
      (flattenAttempts recs).map fun p => UploadCall.mk cid pid p.1 p.2.filePath := by
  induction recs with
  | nil => rfl
  | cons q rest ih =>
    rw [uploadAll, flattenAttempts_cons, List.map_append, uploadQuestion_calls,
      ih, List.map_map]
    rfl

/-- Claim C1 (amended): submit uploads every attached recording in order,
silently omits failed uploads from the payload (there is no aggregate
partial-failure value), and always calls persist — exactly once — whatever
the upload outcomes; no upload failure prevents the persist call. -/
theorem submit_interview_spec (upload : UploadCall → Option String)
    (cid pid : String) (recs : List (String × List RecordingAttempt)) :
    (submit_interview upload cid pid recs).2.2 = 1 ∧
      (submit_interview upload cid pid recs).1 =
        ⟨cid, pid, recs.map fun q => (q.1, q.2.filterMap fun a =>
          (upload ⟨cid, pid, q.1, a.filePath⟩).map
            fun url => PayloadEntry.mk q.1 url a.durationSec)⟩ ∧
      (submit_interview upload cid pid recs).2.1 =
        (flattenAttempts recs).map fun p => UploadCall.mk cid pid p.1 p.2.filePath := by
  refine ⟨rfl, ?_, ?_⟩
  · show SubmissionPayload.mk cid pid (uploadAll upload cid pid recs).1 = _
    rw [uploadAll_entries]
  · show (uploadAll upload cid pid recs).2 = _
    rw [uploadAll_calls]

/-- Claim C1 counterexample: in a session where question 1's upload
succeeds and question 2's upload fails, the code still calls persist —
exactly once — with the failed attempt silently dropped from the
payload; there is no submission outcome carrying the failed attempts. -/
theorem upload_failure_still_persists_cex :
    uploadFailQ2 ⟨"camp", "part", "q2", "f2"⟩ = none ∧
      uploadFailQ2 ⟨"camp", "part", "q1", "f1"⟩ = some "https://x/f1" ∧
      (submit_interview uploadFailQ2 "camp" "part" sComplete.recordings).2.2 = 1 ∧
      (submit_interview uploadFailQ2 "camp" "part" sComplete.recordings).1.recordings =
        [("q1", [PayloadEntry.mk "q1" "https://x/f1" 1]), ("q2", [])] := by
  refine ⟨by decide, by decide, rfl, by decide⟩

/-- Membership characterization of the unanswered list: index `i + 1` is
reported iff question `i` exists and its recording list is missing or
empty. -/
theorem mem_unansweredQuestions (s : SessionState) (i : Nat) :
    (i + 1) ∈ unansweredQuestions s ↔
      ∃ q, s.questions[i]? = some q ∧
        isUnanswered (lookupRecordings s.recordings q.id) = true := by
  unfold unansweredQuestions
  rw [List.mem_filterMap]
  constructor
  · rintro ⟨⟨j, q⟩, hmem, hf⟩
    rw [List.mk_mem_enum_iff_getElem?] at hmem
    by_cases hu : isUnanswered (lookupRecordings s.recordings q.id) = true
    · rw [if_pos hu] at hf
      have hj : j = i := by
        have := Option.some.inj hf
        omega
      subst hj
      exact ⟨q, hmem, hu⟩
    · rw [if_neg hu] at hf
      cases hf
  · rintro ⟨q, hq, hu⟩
    refine ⟨(i, q), ?_, ?_⟩
    · rw [List.mk_mem_enum_iff_getElem?]
      exact hq
    · rw [if_pos hu]

/-- Claim C6: when at least one question has no recordings, the submit
command reports exactly the 1-based indices of the unanswered questions,
makes no upload call, leaves the session state unchanged and never
reaches the submission pipeline; `i + 1` is reported precisely for the
questions `i` whose recording list is missing or empty. -/
theorem submit_incomplete_guard (upload : UploadCall → Option String)
    (cid : String) (s : SessionState) (h : unansweredQuestions s ≠ []) :
    submitCommand upload cid s = (.incomplete (unansweredQuestions s), s, []) ∧
      ∀ i : Nat, (i + 1) ∈ unansweredQuestions s ↔
        ∃ q, s.questions[i]? = some q ∧
          isUnanswered (lookupRecordings s.recordings q.id) = true := by
  refine ⟨?_, fun i => mem_unansweredQuestions s i⟩
  have hne : ¬ ((unansweredQuestions s).isEmpty = true) := by simpa using h
  unfold submitCommand
  rw [if_neg hne]

/-- Claim C6 witness: the guard theorem applied to the session whose
second question has no recordings; the reported list is `[2]`. -/
theorem submit_incomplete_guard_witness :
    unansweredQuestions sIncomplete ≠ [] ∧
      unansweredQuestions sIncomplete = [2] ∧
      submitCommand uploadFailQ2 "camp" sIncomplete =
        (.incomplete (unansweredQuestions sIncomplete), sIncomplete, []) := by
  have h : unansweredQuestions sIncomplete ≠ [] := by decide
  exact ⟨h, by decide,
    (submit_incomplete_guard uploadFailQ2 "camp" sIncomplete h).1⟩

/-- The question ids of the flattened attempt sequence are determined by
the shape of the session alone (its question ids and attempt counts). -/
theorem flattenAttempts_fst_of_shape :
    ∀ recs1 recs2 : List (String × List RecordingAttempt),
      recs1.map (fun p => (p.1, p.2.length)) = recs2.map (fun p => (p.1, p.2.length)) →
      (flattenAttempts recs1).map Prod.fst = (flattenAttempts recs2).map Prod.fst := by
  intro recs1
  induction recs1 with
  | nil =>
    intro recs2 h
    cases recs2 with
    | nil => rfl
    | cons q t => simp at h
  | cons p rest ih =>
    intro recs2 h
    cases recs2 with
    | nil => simp at h
    | cons q rest2 =>
      simp only [List.map_cons, List.cons.injEq, Prod.mk.injEq] at h
      obtain ⟨⟨hq, hl⟩, h2⟩ := h
      rw [flattenAttempts_cons, flattenAttempts_cons, List.map_append,
        List.map_append, ih rest2 h2, List.map_map, List.map_map]
      congr 1
      rw [show (Prod.fst ∘ fun a : RecordingAttempt => (p.1, a)) = fun _ => p.1 from rfl,
        show (Prod.fst ∘ fun a : RecordingAttempt => (q.1, a)) = fun _ => q.1 from rfl,
        List.map_const', List.map_const', hl, hq]

/-- Paths built from zipping with timestamps depend only on the first
components of the zipped pairs. -/
theorem zip_paths_of_fst_eq (cid pid : String) :
    ∀ (l1 l2 : List (String × RecordingAttempt)) (ts : List String),
      l1.map Prod.fst = l2.map Prod.fst →
      (l1.zip ts).map (fun q => firebasePath cid pid q.1.1 q.2) =
        (l2.zip ts).map (fun q => firebasePath cid pid q.1.1 q.2) := by
  intro l1
  induction l1 with
  | nil =>
    intro l2 ts h
    cases l2 with
    | nil => rfl
    | cons b t => simp at h
  | cons a l1 ih =>
    intro l2 ts h
    cases l2 with
    | nil => simp at h
    | cons b l2 =>
      cases ts with
      | nil => rfl
      | cons t ts =>
        simp only [List.map_cons, List.cons.injEq] at h
        simp only [List.zip_cons_cons, List.map_cons]
        rw [h.1, ih l2 ts h.2]

/-- Claim C7 (amended): every destination path has the shape
recordings/{campaign}/{participant}/{question}/{timestamp}.wav, where
the final component is the formatted wall-clock upload time, not the
attempt's sequence number; hence the path list is determined by the
session's question-id shape together with the upload times (audio
content, file names and durations are irrelevant), but it is not a
function of the session state alone. -/
theorem submission_paths_shape_determined (cid pid : String)
    (recs1 recs2 : List (String × List RecordingAttempt)) (times : List String)
    (h : recs1.map (fun p => (p.1, p.2.length)) =
      recs2.map (fun p => (p.1, p.2.length))) :
    submissionPaths cid pid recs1 times = submissionPaths cid pid recs2 times := by
  unfold submissionPaths
  exact zip_paths_of_fst_eq cid pid _ _ times
    (flattenAttempts_fst_of_shape recs1 recs2 h)

/-- Claim C7 witness: two sessions with the same question ids and attempt
counts but different local files and durations, uploaded at the same
times, produce identical destination paths. -/
theorem submission_paths_shape_witness :
    ([("q", [RecordingAttempt.mk "q" "fileA" 1])].map
        (fun p => (p.1, p.2.length)) =
      [("q", [RecordingAttempt.mk "q" "fileB" 7])].map
        (fun p => (p.1, p.2.length))) ∧
      submissionPaths "c" "p" [("q", [RecordingAttempt.mk "q" "fileA" 1])] ["t0"] =
        submissionPaths "c" "p" [("q", [RecordingAttempt.mk "q" "fileB" 7])] ["t0"] := by
  have h : [("q", [RecordingAttempt.mk "q" "fileA" 1])].map
        (fun p => (p.1, p.2.length)) =
      [("q", [RecordingAttempt.mk "q" "fileB" 7])].map
        (fun p => (p.1, p.2.length)) := by decide
  exact ⟨h, submission_paths_shape_determined "c" "p" _ _ ["t0"] h⟩

/-- Claim C7 counterexample: the very same session state (same campaign,
participant, question and the single attempt in sequence position 1)
uploaded at two different wall-clock seconds yields two different
destination paths — the path is not a deterministic function of
campaign, participant, question and sequence number. -/
theorem dest_path_time_dependent_cex :
    submissionPaths "c" "p" [("q", [RecordingAttempt.mk "q" "f" 1])]
        ["20250101120000"] ≠
      submissionPaths "c" "p" [("q", [RecordingAttempt.mk "q" "f" 1])]
        ["20250101120001"] := by
  decide

end InterviewRecording
